import Mathlib

/-!
Shallow embedding of the CLPsych 2025 shared-task evaluation pipeline
(`src/evaluation/`): the wellbeing MSE scorer, the span scorer, the NLI
consistency scorer, the aggregator `score_submission`, and the submission
validator.  External model inference (BERTScore F-scores, NLI entailment and
contradiction probabilities, sub-word tokenizer lengths, `nltk.sent_tokenize`)
is parameterised as oracle functions; everything else is translated from the
Python source.  Numeric values are embedded as `ℚ` (Python ints and floats),
fallible dictionary indexing (`d[k]`, raising `KeyError`) as `Option`.
-/

namespace CLPsych

/-- A Python/JSON value, as found in submission files: `None`, `int`,
`float`, `str`, `list`, or `dict`. -/
inductive PyVal where
  | none
  | int (z : ℤ)
  | float (q : ℚ)
  | str (s : String)
  | list (xs : List PyVal)
  | dict (entries : List (String × PyVal))
deriving Repr

/-- `isinstance(v, str)`. -/
def PyVal.isStr : PyVal → Bool
  | .str _ => true
  | _ => false

/-- The value is a Python `int` or `None` (the type the spec says reaches the
wellbeing scorer). -/
def PyVal.isIntOrNull : PyVal → Bool
  | .int _ => true
  | .none => true
  | _ => false

/-- The value is a Python `int`, `float` or `None`. -/
def PyVal.isIntFloatOrNull : PyVal → Bool
  | .int _ => true
  | .float _ => true
  | .none => true
  | _ => false

/-- Python `str.strip()`: remove leading and trailing whitespace (the
whitespace recognised by `Char.isWhitespace`; defined over the character
list so that it evaluates by kernel reduction). -/
def pyStrip (s : String) : String :=
  ⟨((s.data.dropWhile Char.isWhitespace).reverse.dropWhile Char.isWhitespace).reverse⟩

/-- Python `str.isnumeric()`, restricted to ASCII digit strings (the unicode
numeral cases do not occur in the data handled by the claims): true iff the
string is non-empty and all characters are digits. -/
def pyIsNumeric (s : String) : Bool := !s.data.isEmpty && s.data.all Char.isDigit

/-- Python `int(s)` on a string of ASCII digits. -/
def pyStrToInt (s : String) : ℤ :=
  (s.data.foldl (fun n c => n * 10 + (c.toNat - 48)) 0 : ℕ)

/-- The Python list comprehension `[s.strip() for s in xs if s.strip()]`:
strip every string and drop the ones that are empty after stripping. -/
def stripFilter (xs : List String) : List String :=
  xs.filterMap (fun s => if pyStrip s = "" then Option.none else some (pyStrip s))

/-- Mean of a list of rationals (`np.mean` / dividing a sum by a length).
All uses in the pipeline are on non-empty lists (numpy would produce NaN on
an empty one, which `ℚ` cannot represent; no claim touches that path). -/
def listMean (xs : List ℚ) : ℚ := xs.sum / xs.length

/-- Maximum of a non-empty list of rationals (`np.max` / `Tensor.max`); the
`[]` case is unreachable at every call site (numpy raises there). -/
def listMax : List ℚ → ℚ
  | [] => 0
  | x :: xs => xs.foldl max x

/-- Maximum of a non-empty list of integers (`np.max`); `[]` unreachable. -/
def listMaxZ : List ℤ → ℤ
  | [] => 0
  | x :: xs => xs.foldl max x

/-- numpy `astype(int)` on a float: truncation toward zero. -/
def truncInt (q : ℚ) : ℤ := if 0 ≤ q then ⌊q⌋ else ⌈q⌉

/-- One metric observation: the task id and the numeric value, as stored in
each result dictionary (`{"task": ..., "value": ...}`). -/
structure MetricVal where
  task : String
  value : ℚ
deriving Repr, DecidableEq

end CLPsych

namespace CLPsych

/-! ## Span scorer (`span_scorer.py`)

`SpanScorer` is parameterised by `tokLen s` — the length of
`tokenizer(s)["input_ids"]` for a single span (the code subtracts 2 for the
two special tokens) — and `fscore cand ref` — the BERTScore F for candidate
`cand` against reference `ref` (`scorer.score` is called with the predicted
spans as candidates and the gold span repeated as reference). -/

/-- `SpanScorer.score_empty_predictions`: default values when no predictions
are submitted. -/
def score_empty_predictions : List (String × MetricVal) :=
  [("bertscore_recall", ⟨"A.1", 0⟩),
   ("bertscore_weighted_recall", ⟨"A.1", 0⟩)]

/-- `SpanScorer.compute_span_metrics`. -/
def compute_span_metrics (tokLen : String → ℕ) (fscore : String → String → ℚ)
    (gold_spans predicted_spans : List String) : List (String × MetricVal) :=
  let gold_spans := stripFilter gold_spans
  let predicted_spans := stripFilter predicted_spans
  if predicted_spans.isEmpty then score_empty_predictions
  else
    let num_gold_spans_tokens : ℤ :=
      (gold_spans.map (fun s => (tokLen s : ℤ) - 2)).sum
    let num_pred_spans_tokens : ℤ :=
      (predicted_spans.map (fun s => (tokLen s : ℤ) - 2)).sum
    let weight : ℚ :=
      if num_gold_spans_tokens < num_pred_spans_tokens then
        (num_gold_spans_tokens : ℚ) / (num_pred_spans_tokens : ℚ)
      else 1
    let curr_recalls :=
      gold_spans.map (fun gold_span =>
        listMax (predicted_spans.map (fun p => fscore p gold_span)))
    let curr_recalls_weighted := curr_recalls.map (· * weight)
    [("bertscore_recall", ⟨"A.1", listMean curr_recalls⟩),
     ("bertscore_weighted_recall", ⟨"A.1", listMean curr_recalls_weighted⟩)]

end CLPsych

namespace CLPsych

/-! ## NLI consistency scorer (`nli_scorer.py`)

`NLIScorer` is parameterised by `entail prem hyp` and `contradict prem hyp`,
the entailment/contradiction probabilities of `_compute_nli_scores(premise,
hypothesis)`.  `compute_nli_scores` returns `Option`: when the predicted
sentences are non-empty but the source sentences are empty, the score lists
are empty and `np.max` raises (`none`). -/

/-- `NLIScorer.compute_nli_scores`. -/
def compute_nli_scores (entail contradict : String → String → ℚ)
    (source_sents predicted_sents : List String)
    (task pfx source_name : String) : Option (List (String × MetricVal)) :=
  if predicted_sents.isEmpty then
    some [(pfx ++ "_mean_consistency_" ++ source_name, ⟨task, 0⟩),
          (pfx ++ "_max_entailment_" ++ source_name, ⟨task, 0⟩),
          (pfx ++ "_max_contradiction_" ++ source_name, ⟨task, 1⟩)]
  else
    let pairs := source_sents.foldr (fun s acc =>
      predicted_sents.map (fun p => (entail s p, contradict s p)) ++ acc) []
    match pairs with
    | [] => Option.none
    | _ :: _ =>
      let entail_scores := pairs.map Prod.fst
      let contradict_scores := pairs.map Prod.snd
      some [(pfx ++ "_mean_consistency_" ++ source_name,
              ⟨task, 1 - listMean contradict_scores⟩),
            (pfx ++ "_max_entailment_" ++ source_name,
              ⟨task, listMax entail_scores⟩),
            (pfx ++ "_max_contradiction_" ++ source_name,
              ⟨task, listMax contradict_scores⟩)]

/-- `NLIScorer.compute_post_nli_gold`. -/
def compute_post_nli_gold (entail contradict : String → String → ℚ)
    (gold_sents predicted_sents : List String) : Option (List (String × MetricVal)) :=
  compute_nli_scores entail contradict gold_sents predicted_sents "B" "post" "gold"

/-- `NLIScorer.compute_timeline_nli_gold`. -/
def compute_timeline_nli_gold (entail contradict : String → String → ℚ)
    (gold_sents predicted_sents : List String) : Option (List (String × MetricVal)) :=
  compute_nli_scores entail contradict gold_sents predicted_sents "C" "timeline" "gold"

end CLPsych

namespace CLPsych

/-! ## Wellbeing scorer (`wellbeing_scorer.py`)

Gold scores are `Option ℤ` (int or `None`), predictions `Option ℚ` (int,
float, or `None` — the aggregator's normalization guarantees no other type
reaches the scorer).  The index-aligned numpy arrays `y_trues`, `y_preds`,
`none_mask` are embedded as lists of rows. -/

/-- The gold-null filtering step (`valid_gold_idx = y_trues != None` and the
two maskings): the list of (gold, prediction) rows whose gold is annotated. -/
def processRows (y_trues : List (Option ℤ)) (y_preds : List (Option ℚ)) :
    List (ℤ × Option ℚ) :=
  (y_trues.zip y_preds).filterMap (fun gp => gp.1.map (fun g => (g, gp.2)))

/-- `WellbeingScorer.check_and_process_wellbeing_scores`: returns the
processed rows and the missing-prediction mask.  With `do_penalize = false`
the rows with a `None` prediction are dropped, the remaining predictions are
truncated to int (`astype(int)`), and the mask is the empty array. -/
def check_and_process_wellbeing_scores (y_trues : List (Option ℤ))
    (y_preds : List (Option ℚ)) (do_penalize : Bool) :
    List (ℤ × Option ℚ) × List Bool :=
  let rows := processRows y_trues y_preds
  if do_penalize then (rows, rows.map (fun r => r.2.isNone))
  else
    (rows.filterMap (fun r => r.2.map (fun p => (r.1, some ((truncInt p : ℤ) : ℚ)))),
     [])

/-- `np.max(np.abs(y_trues_subset - y_preds_subset))`: maximum absolute
error over the rows with a non-null prediction, the prediction truncated to
int (`astype(int)`). -/
def maxObservedError (rows : List (ℤ × Option ℚ)) : ℤ :=
  listMaxZ (rows.filterMap (fun r => r.2.map (fun p => ((r.1 - truncInt p).natAbs : ℤ))))

/-- `WellbeingScorer.max_possible_error` (wellbeing score range is [1, 10]). -/
def max_possible_error : ℤ := 9

/-- The rows after the missing-prediction penalty substitution
(`y_preds[none_mask] = y_trues[none_mask] + max_error`); when no mask entry
is set every prediction is present and the rows pass through unchanged. -/
def resolved_rows (y_trues : List (Option ℤ)) (y_preds : List (Option ℚ))
    (do_penalize : Bool) : List (ℤ × ℚ) :=
  let rm := check_and_process_wellbeing_scores y_trues y_preds do_penalize
  let rows := rm.1
  let none_mask := rm.2
  if none_mask.any id then
    let max_error : ℤ :=
      if none_mask.all id then max_possible_error else maxObservedError rows
    rows.map (fun r => (r.1, r.2.getD ((r.1 + max_error : ℤ) : ℚ)))
  else
    rows.filterMap (fun r => r.2.map (fun p => (r.1, p)))

/-- `sklearn.metrics.mean_squared_error` on the aligned rows. -/
def mean_squared_error (rows : List (ℤ × ℚ)) : ℚ :=
  listMean (rows.map (fun r => ((r.1 : ℚ) - r.2) ^ 2))

/-- The metric key `f"mse_{suffix}" if suffix else "mse"`. -/
def mseKey (sfx : String) : String := if sfx = "" then "mse" else "mse_" ++ sfx

/-- `WellbeingScorer.bins`, in insertion order: label, lower and upper gold
score bound (inclusive). -/
def wb_bins : List (String × ℤ × ℤ) :=
  [("serious", 1, 4), ("impaired", 5, 6), ("minimal", 7, 10)]

/-- `WellbeingScorer.compute_mse` with `do_binwise=False`. -/
def compute_mse_nobin (y_trues : List (Option ℤ)) (y_preds : List (Option ℚ))
    (do_penalize : Bool) (sfx : String) : List (String × MetricVal) :=
  [(mseKey sfx, ⟨"A.2", mean_squared_error (resolved_rows y_trues y_preds do_penalize)⟩)]

/-- The `do_binwise` for-loop of `compute_mse`: for each bin, mask the
(already resolved) rows by the gold score range; a bin with no gold member
is skipped, otherwise recurse with `do_binwise=False`
(= `compute_mse_nobin`) under the bin's suffix. -/
def binwise_results (rows : List (ℤ × ℚ)) (dp : Bool)
    (bins : List (String × ℤ × ℤ)) : List (String × MetricVal) :=
  bins.foldr (fun b acc =>
    (let sub := rows.filter (fun r => decide (b.2.1 ≤ r.1 ∧ r.1 ≤ b.2.2))
     if sub.isEmpty then []
     else compute_mse_nobin (sub.map (fun r => some r.1))
            (sub.map (fun r => some r.2)) dp b.1) ++ acc) []

/-- `WellbeingScorer.compute_mse`. -/
def compute_mse (y_trues : List (Option ℤ)) (y_preds : List (Option ℚ))
    (do_penalize do_binwise : Bool) (sfx : String) : List (String × MetricVal) :=
  let result := compute_mse_nobin y_trues y_preds do_penalize sfx
  if do_binwise then
    result ++ binwise_results (resolved_rows y_trues y_preds do_penalize)
      do_penalize wb_bins
  else result

end CLPsych

namespace CLPsych

/-! ## Aggregator (`run.py`, `score_submission`) and gold/submission data

The gold structures mirror the records produced by
`process_gold_data.process_annotated_data`; the submission structures mirror
the schema enforced by the validator.  `Option` fields model keys read with
`post_datum.get(key, default)`; a structurally malformed submission (e.g.
missing `timeline_level`) raises in Python and is outside the claims. -/

/-- A gold per-post record (`post_level[post_id]`). -/
structure GoldPost where
  summary : String
  summary_sents : List String
  wellbeing_score : Option ℤ
deriving Repr

/-- A gold evidence span (text, originating element, subcategory). -/
structure GoldSpan where
  text : String
  element : String
  subcategory : String
deriving Repr

/-- The gold `timeline_level` record. -/
structure GoldTimelineLevel where
  summary : String
  summary_sents : List String
  adaptive_spans : List GoldSpan
  maladaptive_spans : List GoldSpan
  sents : List (List String)
  post_ids : List String
deriving Repr

/-- A gold timeline (one entry of the annotated-data file). -/
structure GoldTimeline where
  timeline_level : GoldTimelineLevel
  post_level : List (String × GoldPost)
deriving Repr

/-- A submitted post record.  `none` in a field models an absent key (read
with `.get`); `wellbeing_score` is the raw submitted value. -/
structure SubPost where
  adaptive_evidence : Option (List String)
  maladaptive_evidence : Option (List String)
  summary : Option String
  wellbeing_score : Option PyVal
deriving Repr

/-- A submitted timeline: the `timeline_level.summary` value (any type, the
code checks `isinstance(str)`) and the `post_level` dict. -/
structure SubTimeline where
  timeline_summary : PyVal
  post_level : List (String × SubPost)
deriving Repr

/-- The wellbeing normalization of `score_submission` (run.py lines 94-104):
a string is stripped and parsed when numeric, otherwise nulled; an int or a
float passes through unchanged; anything else becomes null. -/
def normalize_wellbeing_score (v : PyVal) : PyVal :=
  match v with
  | .str s =>
    let s := pyStrip s
    if !s.data.isEmpty && pyIsNumeric s then .int (pyStrToInt s) else .none
  | .int z => .int z
  | .float q => .float q
  | _ => .none

/-- `post_datum.get("adaptive_evidence", [])`. -/
def postAdaptive (p : SubPost) : List String := p.adaptive_evidence.getD []

/-- `post_datum.get("maladaptive_evidence", [])`. -/
def postMaladaptive (p : SubPost) : List String := p.maladaptive_evidence.getD []

/-- `post_datum.get("wellbeing_score")` followed by the normalization. -/
def postWellbeing (p : SubPost) : PyVal :=
  normalize_wellbeing_score (p.wellbeing_score.getD .none)

/-- `post_datum.get("summary", "")`, sentence-tokenized, stripped and
filtered. -/
def postSummarySents (sentTok : String → List String) (p : SubPost) : List String :=
  stripFilter (sentTok (p.summary.getD ""))

/-- The `predicted_wellbeing_scores` list accumulated over the posts. -/
def predicted_wellbeing_scores (posts : List SubPost) : List PyVal :=
  posts.map postWellbeing

/-- Interpret a normalized prediction as the numeric-or-missing value held in
the scorer's numpy arrays (after normalization only int, float or `None`
occur; see the C2 theorems). -/
def pyNum (v : PyVal) : Option ℚ :=
  match v with
  | .int z => some (z : ℚ)
  | .float q => some q
  | _ => Option.none

/-- `[post_level[post_id] for post_id in post_ids]` — indexing with a
missing post id raises `KeyError` (`none`). -/
def lookupPosts (post_level : List (String × SubPost)) :
    List String → Option (List SubPost)
  | [] => some []
  | pid :: rest =>
    match post_level.lookup pid with
    | some p => (lookupPosts post_level rest).map (p :: ·)
    | Option.none => Option.none

/-- `[gold_datum["post_level"][pid] for pid in post_ids]`. -/
def lookupGoldPosts (post_level : List (String × GoldPost)) :
    List String → Option (List GoldPost)
  | [] => some []
  | pid :: rest =>
    match post_level.lookup pid with
    | some p => (lookupGoldPosts post_level rest).map (p :: ·)
    | Option.none => Option.none

/-- The task-B loop: for each zipped (gold summary sentences, predicted
summary sentences) pair, score with the NLI scorer only when the gold
summary is non-empty. -/
def taskB_results (entail contradict : String → String → ℚ) :
    List (List String × List String) → Option (List (List (String × MetricVal)))
  | [] => some []
  | (g, p) :: rest =>
    if g.isEmpty then taskB_results entail contradict rest
    else
      (compute_post_nli_gold entail contradict g p).bind (fun r =>
        (taskB_results entail contradict rest).bind (fun rs => some (r :: rs)))

/-- The body of `score_submission`'s per-timeline loop (run.py lines
69-201), parameterised by the oracle functions.  Returns the `curr_results`
list of result dictionaries, or `none` where the Python code raises: a
`KeyError` on a missing timeline or post id, or `np.max` of an empty score
list inside the NLI scorer.  (The submission timeline lookup happens on the
first iteration of the post loop; gold timelines always contain at least one
post, so it is hoisted before the loop here.) -/
def score_timeline (sentTok : String → List String)
    (tokLen : String → ℕ) (fscore : String → String → ℚ)
    (entail contradict : String → String → ℚ)
    (do_A1 do_A2 do_B do_C : Bool)
    (submission_data : List (String × SubTimeline))
    (timeline_id : String) (gold_datum : GoldTimeline) :
    Option (List (List (String × MetricVal))) :=
  let post_ids := gold_datum.timeline_level.post_ids
  let gold_spans_adaptive := gold_datum.timeline_level.adaptive_spans.map (·.text)
  let gold_spans_maladaptive := gold_datum.timeline_level.maladaptive_spans.map (·.text)
  (submission_data.lookup timeline_id).bind (fun sub =>
  (lookupPosts sub.post_level post_ids).bind (fun posts =>
  let predicted_spans_adaptive := posts.foldr (fun p acc => postAdaptive p ++ acc) []
  let predicted_spans_maladaptive := posts.foldr (fun p acc => postMaladaptive p ++ acc) []
  let predicted_scores := predicted_wellbeing_scores posts
  let predicted_summary_sents := posts.map (postSummarySents sentTok)
  let resultsA1 : List (List (String × MetricVal)) :=
    if do_A1 then
      let curr_result_adaptive :=
        compute_span_metrics tokLen fscore gold_spans_adaptive predicted_spans_adaptive
      let curr_result_maladaptive :=
        compute_span_metrics tokLen fscore gold_spans_maladaptive predicted_spans_maladaptive
      [curr_result_adaptive, curr_result_maladaptive,
       curr_result_adaptive.map (fun kv => (kv.1 ++ "_adaptive", kv.2)),
       curr_result_maladaptive.map (fun kv => (kv.1 ++ "_maladaptive", kv.2))]
    else []
  (if do_A2 then
      (lookupGoldPosts gold_datum.post_level post_ids).bind (fun gold_posts =>
        some [compute_mse (gold_posts.map (·.wellbeing_score))
                (predicted_scores.map pyNum) true true ""])
    else some []).bind (fun resultsA2 =>
  (if do_B then
      (lookupGoldPosts gold_datum.post_level post_ids).bind (fun gold_posts =>
        taskB_results entail contradict
          ((gold_posts.map (·.summary_sents)).zip predicted_summary_sents))
    else some []).bind (fun resultsB =>
  (if do_C then
      let predicted_summary_sents_timeline :=
        match sub.timeline_summary with
        | .str s => stripFilter (sentTok s)
        | _ => []
      let gold_summary_sents_timeline := gold_datum.timeline_level.summary_sents
      if gold_summary_sents_timeline.isEmpty then some []
      else (compute_timeline_nli_gold entail contradict gold_summary_sents_timeline
              predicted_summary_sents_timeline).map (fun r => [r])
    else some []).bind (fun resultsC =>
  some (resultsA1 ++ resultsA2 ++ resultsB ++ resultsC))))))

/-- `score_submission`: iterate the gold timelines in order; any per-timeline
failure aborts the run. -/
def score_submission (sentTok : String → List String)
    (tokLen : String → ℕ) (fscore : String → String → ℚ)
    (entail contradict : String → String → ℚ)
    (do_A1 do_A2 do_B do_C : Bool)
    (submission_data : List (String × SubTimeline))
    (gold_data : List (String × GoldTimeline)) :
    Option (List (String × List (List (String × MetricVal)))) :=
  gold_data.mapM (fun tg =>
    (score_timeline sentTok tokLen fscore entail contradict do_A1 do_A2 do_B do_C
        submission_data tg.1 tg.2).map (fun r => (tg.1, r)))

end CLPsych

namespace CLPsych

/-! ## Submission validator (`submission_validator.py`)

The mutable `Validator` state (`valid` flag, issue sets, logged warnings) is
threaded explicitly.  Issue sets are embedded as lists with set-insertion
(membership is what the claims are about; Python's set iteration order is
unspecified and only affects log-line order).  `logger.error` calls carry no
state beyond the issue sets and are not modelled; `logger.warning` calls are
recorded in `warnings`. -/

/-- Insert into a set-valued field (`set.add`). -/
def addSet {α : Type} [DecidableEq α] (xs : List α) (x : α) : List α :=
  if x ∈ xs then xs else xs ++ [x]

/-- The `Validator` object's mutable state. -/
structure VState where
  valid : Bool
  timelines_with_issues : List String
  posts_with_issues : List (String × String)
  warnings : List String
deriving Repr, DecidableEq

/-- The state after `Validator.__init__` (the timeline→post-id mapping is
passed separately to the functions that read it). -/
def initVState : VState :=
  { valid := true, timelines_with_issues := [], posts_with_issues := [],
    warnings := [] }

/-- `Validator.log_timeline_issue`. -/
def log_timeline_issue (st : VState) (timeline_id : String) : VState :=
  { st with timelines_with_issues := addSet st.timelines_with_issues timeline_id,
            valid := false }

/-- `Validator.log_post_issue`. -/
def log_post_issue (st : VState) (timeline_id post_id : String) : VState :=
  log_timeline_issue
    { st with posts_with_issues := addSet st.posts_with_issues (timeline_id, post_id) }
    timeline_id

/-- Python truthiness of the optional `timeline_id`/`post_id` arguments
(`None` and the empty string are falsy). -/
def pyTruthy (o : Option String) : Bool :=
  match o with
  | some s => !s.isEmpty
  | Option.none => false

/-- The failure branch shared by `check_type` and `check_required_fields`:
`if post_id and timeline_id: log_post_issue elif timeline_id:
log_timeline_issue else: self.valid = False`. -/
def flagIssue (st : VState) (timeline_id post_id : Option String) : VState :=
  if pyTruthy post_id && pyTruthy timeline_id then
    log_post_issue st (timeline_id.getD "") (post_id.getD "")
  else if pyTruthy timeline_id then log_timeline_issue st (timeline_id.getD "")
  else { st with valid := false }

/-- Push a `logger.warning` message. -/
def logWarning (st : VState) (msg : String) : VState :=
  { st with warnings := st.warnings ++ [msg] }

/-- `Validator.check_type`: `ok` is the result of the `isinstance` check; on
failure the issue is attributed to the post, the timeline, or the file. -/
def check_type (st : VState) (ok : Bool) (timeline_id post_id : Option String) :
    VState :=
  if ok then st else flagIssue st timeline_id post_id

/-- `Validator.check_required_fields`: flag when some required field is
missing from the data's keys. -/
def check_required_fields (st : VState) (keys required : List String)
    (timeline_id post_id : Option String) : VState :=
  if required.all (· ∈ keys) then st else flagIssue st timeline_id post_id

/-- The `adaptive_evidence`/`maladaptive_evidence` check of
`validate_post_dict`: if the key is present, `check_type(list)`, then
`check_type(str)` on every element. -/
def checkEvidence (st : VState) (entries : List (String × PyVal)) (key : String)
    (timeline_id post_id : String) : VState :=
  match entries.lookup key with
  | Option.none => st
  | some v =>
    match v with
    | .list xs =>
      xs.foldl (fun s x =>
        check_type s x.isStr (some timeline_id) (some post_id)) st
    | _ => flagIssue st (some timeline_id) (some post_id)

/-- The `wellbeing_score` check of `validate_post_dict` (lines 359-382): a
`None` score returns; a float logs the truncation warning and falls through
to the range check; a non-int non-float fails `check_type(int)` and returns;
an in-range value passes and an out-of-range value (< 1 or > 10) logs a
post issue. -/
def check_wellbeing_score (st : VState) (score : PyVal)
    (timeline_id post_id : String) : VState :=
  match score with
  | .none => st
  | .float q =>
    let st := logWarning st ("Timeline " ++ timeline_id ++ ", Post " ++ post_id ++
      ": Well-being score is float. It will be truncated to int automatically during evaluation.")
    if q < 1 ∨ 10 < q then log_post_issue st timeline_id post_id else st
  | .int z =>
    if z < 1 ∨ 10 < z then log_post_issue st timeline_id post_id else st
  | _ => flagIssue st (some timeline_id) (some post_id)

/-- The `summary` field check of `validate_post_dict`. -/
def summary_field_check (st : VState) (entries : List (String × PyVal))
    (timeline_id post_id : String) : VState :=
  match entries.lookup "summary" with
  | Option.none => st
  | some v => check_type st v.isStr (some timeline_id) (some post_id)

/-- The `wellbeing_score` field dispatch of `validate_post_dict`. -/
def wellbeing_field_check (st : VState) (entries : List (String × PyVal))
    (timeline_id post_id : String) : VState :=
  match entries.lookup "wellbeing_score" with
  | Option.none => st
  | some v => check_wellbeing_score st v timeline_id post_id

/-- `Validator.validate_post_dict`. -/
def validate_post_dict (st : VState) (post_data : PyVal)
    (timeline_id post_id : String) : VState :=
  match post_data with
  | .dict entries =>
    if entries.isEmpty then log_post_issue st timeline_id post_id
    else
      wellbeing_field_check
        (summary_field_check
          (checkEvidence
            (checkEvidence
              (check_required_fields st (entries.map Prod.fst)
                ["adaptive_evidence", "maladaptive_evidence", "summary",
                 "wellbeing_score"] (some timeline_id) (some post_id))
              entries "adaptive_evidence" timeline_id post_id)
            entries "maladaptive_evidence" timeline_id post_id)
          entries timeline_id post_id)
        entries timeline_id post_id
  | _ => flagIssue st (some timeline_id) (some post_id)

/-- The `summary` type check of `validate_timeline_level`. -/
def summary_type_check (st : VState) (entries : List (String × PyVal))
    (timeline_id : String) : VState :=
  match entries.lookup "summary" with
  | Option.none => st
  | some v => check_type st v.isStr (some timeline_id) Option.none

/-- The empty-summary warning of `validate_timeline_level`. -/
def timeline_summary_warn (st : VState) (entries : List (String × PyVal))
    (timeline_id : String) : VState :=
  match entries.lookup "summary" with
  | some (.str s) =>
    if pyStrip s = "" then
      logWarning st ("Timeline " ++ timeline_id ++ ": timeline_level summary is empty")
    else st
  | _ => st

/-- `Validator.validate_timeline_level` (required fields: `{"summary"}`;
a missing field returns early). -/
def validate_timeline_level (st : VState) (timeline_level : PyVal)
    (timeline_id : String) : VState :=
  match timeline_level with
  | .dict entries =>
    if entries.isEmpty then log_timeline_issue st timeline_id
    else
      if "summary" ∈ entries.map Prod.fst then
        timeline_summary_warn (summary_type_check st entries timeline_id)
          entries timeline_id
      else flagIssue st (some timeline_id) Option.none
  | _ => flagIssue st (some timeline_id) Option.none

/-- The unexpected-posts warning of `validate_post_level`. -/
def unexpected_posts_warn (st : VState) (actual expected : List String)
    (timeline_id : String) : VState :=
  if actual.filter (· ∉ expected) ≠ [] then
    logWarning st ("Timeline " ++ timeline_id ++
      ": post_level: Found unexpected posts. They will be ignored during evaluation.")
  else st

/-- `Validator.validate_post_level`.  `mapping` is
`self.timeline_id_to_post_ids`; the missing-post issues are logged per
missing post, then every submitted post is validated. -/
def validate_post_level (st : VState) (post_level : PyVal) (timeline_id : String)
    (mapping : List (String × List String)) : VState :=
  match post_level with
  | .dict entries =>
    if entries.isEmpty then log_timeline_issue st timeline_id
    else
      let expected_post_ids := (mapping.lookup timeline_id).getD []
      let actual_post_ids := entries.map Prod.fst
      let missing_posts := expected_post_ids.filter (· ∉ actual_post_ids)
      entries.foldl (fun s kv => validate_post_dict s kv.2 timeline_id kv.1)
        (unexpected_posts_warn
          (missing_posts.foldl (fun s mp => log_post_issue s timeline_id mp) st)
          actual_post_ids expected_post_ids timeline_id)
  | _ => flagIssue st (some timeline_id) Option.none

/-- The `timeline_level` dispatch of `validate_timeline_dict`. -/
def timeline_level_field_check (st : VState) (entries : List (String × PyVal))
    (timeline_id : String) : VState :=
  match entries.lookup "timeline_level" with
  | some v => validate_timeline_level st v timeline_id
  | Option.none => st

/-- The `post_level` dispatch of `validate_timeline_dict`. -/
def post_level_field_check (st : VState) (entries : List (String × PyVal))
    (timeline_id : String) (mapping : List (String × List String)) : VState :=
  match entries.lookup "post_level" with
  | some v => validate_post_level st v timeline_id mapping
  | Option.none => st

/-- `Validator.validate_timeline_dict`. -/
def validate_timeline_dict (st : VState) (timeline_data : PyVal)
    (timeline_id : String) (mapping : List (String × List String)) : VState :=
  match timeline_data with
  | .dict entries =>
    if entries.isEmpty then log_timeline_issue st timeline_id
    else
      post_level_field_check
        (timeline_level_field_check
          (check_required_fields st (entries.map Prod.fst)
            ["timeline_level", "post_level"] (some timeline_id) Option.none)
          entries timeline_id)
        entries timeline_id mapping
  | _ => flagIssue st (some timeline_id) Option.none

/-- The unexpected-timelines warning of `validate_file`. -/
def unexpected_timelines_warn (st : VState) (actual expected : List String) :
    VState :=
  if actual.filter (· ∉ expected) ≠ [] then
    logWarning st
      "Found unexpected timelines. They will be ignored during evaluation."
  else st

/-- `Validator.validate_file`, from the point the JSON has been parsed (file
I/O and parse failures set `valid = False` and return, like the non-dict and
empty-dict cases here): record the missing expected timelines, warn about
unexpected ones, then validate every submitted timeline. -/
def validate_file (st : VState) (mapping : List (String × List String))
    (data : PyVal) : VState :=
  match data with
  | .dict entries =>
    if entries.isEmpty then { st with valid := false }
    else
      let expected_timelines := mapping.map Prod.fst
      let actual_timelines := entries.map Prod.fst
      let missing_timelines := expected_timelines.filter (· ∉ actual_timelines)
      let st1 :=
        if missing_timelines ≠ [] then
          missing_timelines.foldl (fun s m => log_timeline_issue s m)
            { st with valid := false }
        else st
      entries.foldl (fun s kv => validate_timeline_dict s kv.2 kv.1 mapping)
        (unexpected_timelines_warn st1 actual_timelines expected_timelines)
  | _ => { st with valid := false }

/-- `submission_validator.main`: `sys.exit(0 if validator.valid else 1)`. -/
def validator_exit_code (st : VState) : ℕ := if st.valid then 0 else 1

end CLPsych

namespace CLPsych

/-! ## Theorems -/

theorem listSum_map_mul (xs : List ℚ) (w : ℚ) :
    (xs.map (· * w)).sum = xs.sum * w := by
  induction xs with
  | nil => simp
  | cons x xs ih => simp [ih, add_mul]

theorem listMean_map_mul (xs : List ℚ) (w : ℚ) :
    listMean (xs.map (· * w)) = listMean xs * w := by
  unfold listMean
  rw [List.length_map, listSum_map_mul, mul_div_right_comm]

/-- C7: for every gold span list and every predicted span list whose elements
are all empty after stripping (including the empty list), `compute_span_metrics`
returns `bertscore_recall = 0.0` and `bertscore_weighted_recall = 0.0`,
regardless of gold content. -/
theorem c7_empty_predictions_scored_zero (tokLen : String → ℕ)
    (fscore : String → String → ℚ) (gold_spans predicted_spans : List String)
    (h : stripFilter predicted_spans = []) :
    (compute_span_metrics tokLen fscore gold_spans predicted_spans).lookup
        "bertscore_recall" = some ⟨"A.1", 0⟩ ∧
    (compute_span_metrics tokLen fscore gold_spans predicted_spans).lookup
        "bertscore_weighted_recall" = some ⟨"A.1", 0⟩ := by
  have hres : compute_span_metrics tokLen fscore gold_spans predicted_spans =
      score_empty_predictions := by
    unfold compute_span_metrics
    rw [h]
    rfl
  rw [hres]
  exact ⟨rfl, rfl⟩

/-- Witness for C7 at a concrete input: predictions that are whitespace-only
strip to nothing and are scored as worst case. -/
theorem c7_empty_predictions_scored_zero_witness :
    stripFilter ["   ", ""] = [] ∧
    ((compute_span_metrics (fun _ => 10) (fun _ _ => 1) ["gold evidence"]
        ["   ", ""]).lookup "bertscore_recall" = some ⟨"A.1", 0⟩ ∧
     (compute_span_metrics (fun _ => 10) (fun _ _ => 1) ["gold evidence"]
        ["   ", ""]).lookup "bertscore_weighted_recall" = some ⟨"A.1", 0⟩) :=
  ⟨by decide,
   c7_empty_predictions_scored_zero (fun _ => 10) (fun _ _ => 1) ["gold evidence"]
     ["   ", ""] (by decide)⟩

/-- C8: for every source sentence list, whenever the predicted sentence list
is empty, `compute_nli_scores` returns exactly `mean_consistency = 0.0`,
`max_entailment = 0.0` and `max_contradiction = 1.0` under the prefixed
metric names. -/
theorem c8_empty_predicted_worst_case (entail contradict : String → String → ℚ)
    (source_sents : List String) (task pfx source_name : String) :
    compute_nli_scores entail contradict source_sents [] task pfx source_name =
      some [(pfx ++ "_mean_consistency_" ++ source_name, ⟨task, 0⟩),
            (pfx ++ "_max_entailment_" ++ source_name, ⟨task, 0⟩),
            (pfx ++ "_max_contradiction_" ++ source_name, ⟨task, 1⟩)] := rfl

/-- C4: for non-empty stripped gold and predicted span lists,
`weighted_recall = recall × weight` with `weight = g/p` when `g < p` and
`weight = 1` otherwise, `g`/`p` being the total sub-word token counts
(excluding the 2 special tokens per span); in particular `g = 50, p = 100`
gives `recall × 1/2`, and `g ≥ p` gives `weighted_recall = recall`. -/
theorem c4_weighted_recall_eq_recall_mul_weight (tokLen : String → ℕ)
    (fscore : String → String → ℚ) (gold_spans predicted_spans : List String)
    (_hg : stripFilter gold_spans ≠ []) (hp : stripFilter predicted_spans ≠ []) :
    ∃ r w : ℚ,
      (compute_span_metrics tokLen fscore gold_spans predicted_spans).lookup
          "bertscore_recall" = some ⟨"A.1", r⟩ ∧
      (compute_span_metrics tokLen fscore gold_spans predicted_spans).lookup
          "bertscore_weighted_recall" = some ⟨"A.1", w⟩ ∧
      w = r *
        (if ((stripFilter gold_spans).map (fun s => (tokLen s : ℤ) - 2)).sum <
              ((stripFilter predicted_spans).map (fun s => (tokLen s : ℤ) - 2)).sum
          then (((stripFilter gold_spans).map (fun s => (tokLen s : ℤ) - 2)).sum : ℚ) /
              (((stripFilter predicted_spans).map (fun s => (tokLen s : ℤ) - 2)).sum : ℚ)
          else 1) ∧
      (((stripFilter gold_spans).map (fun s => (tokLen s : ℤ) - 2)).sum = 50 →
        ((stripFilter predicted_spans).map (fun s => (tokLen s : ℤ) - 2)).sum = 100 →
        w = r * (1 / 2)) ∧
      (((stripFilter predicted_spans).map (fun s => (tokLen s : ℤ) - 2)).sum ≤
          ((stripFilter gold_spans).map (fun s => (tokLen s : ℤ) - 2)).sum →
        w = r) := by
  simp only [compute_span_metrics, List.isEmpty_eq_false.mpr hp, Bool.false_eq_true,
    if_false]
  refine ⟨_, _, rfl, rfl, ?_, ?_, ?_⟩
  · exact listMean_map_mul _ _
  · intro h50 h100
    rw [listMean_map_mul, h50, h100]
    norm_num
  · intro hle
    rw [listMean_map_mul, if_neg (not_lt.mpr hle), mul_one]

/-- Witness for C4 at a concrete input: one gold span of 50 sub-word tokens,
two predicted spans totalling 100, so the weight is 1/2. -/
theorem c4_weighted_recall_eq_recall_mul_weight_witness :
    (stripFilter ["gold evidence"] ≠ [] ∧ stripFilter ["a", "b"] ≠ []) ∧
    (∃ r w : ℚ,
      (compute_span_metrics (fun _ => 52) (fun _ _ => 3 / 4) ["gold evidence"]
          ["a", "b"]).lookup "bertscore_recall" = some ⟨"A.1", r⟩ ∧
      (compute_span_metrics (fun _ => 52) (fun _ _ => 3 / 4) ["gold evidence"]
          ["a", "b"]).lookup "bertscore_weighted_recall" = some ⟨"A.1", w⟩ ∧
      w = r *
        (if ((stripFilter ["gold evidence"]).map (fun s => ((fun _ => 52) s : ℤ) - 2)).sum <
              ((stripFilter ["a", "b"]).map (fun s => ((fun _ => 52) s : ℤ) - 2)).sum
          then (((stripFilter ["gold evidence"]).map (fun s => ((fun _ => 52) s : ℤ) - 2)).sum : ℚ) /
              (((stripFilter ["a", "b"]).map (fun s => ((fun _ => 52) s : ℤ) - 2)).sum : ℚ)
          else 1) ∧
      (((stripFilter ["gold evidence"]).map (fun s => ((fun _ => 52) s : ℤ) - 2)).sum = 50 →
        ((stripFilter ["a", "b"]).map (fun s => ((fun _ => 52) s : ℤ) - 2)).sum = 100 →
        w = r * (1 / 2)) ∧
      (((stripFilter ["a", "b"]).map (fun s => ((fun _ => 52) s : ℤ) - 2)).sum ≤
          ((stripFilter ["gold evidence"]).map (fun s => ((fun _ => 52) s : ℤ) - 2)).sum →
        w = r)) :=
  ⟨⟨by decide, by decide⟩,
   c4_weighted_recall_eq_recall_mul_weight (fun _ => 52) (fun _ _ => 3 / 4)
     ["gold evidence"] ["a", "b"] (by decide) (by decide)⟩

end CLPsych

namespace CLPsych

theorem resolved_rows_all_none (y_trues : List (Option ℤ))
    (y_preds : List (Option ℚ))
    (hne : processRows y_trues y_preds ≠ [])
    (hall : ∀ r ∈ processRows y_trues y_preds, r.2 = Option.none) :
    resolved_rows y_trues y_preds true =
      (processRows y_trues y_preds).map (fun r => (r.1, ((r.1 + 9 : ℤ) : ℚ))) := by
  have hany : ((processRows y_trues y_preds).map (fun r => r.2.isNone)).any id = true := by
    rw [List.any_eq_true]
    obtain ⟨r0, rs, hr⟩ := List.exists_cons_of_ne_nil hne
    refine ⟨r0.2.isNone, List.mem_map_of_mem _ (hr ▸ List.mem_cons_self r0 rs), ?_⟩
    simp [hall r0 (hr ▸ List.mem_cons_self r0 rs)]
  have hallb : ((processRows y_trues y_preds).map (fun r => r.2.isNone)).all id = true := by
    rw [List.all_eq_true]
    intro x hx
    rw [List.mem_map] at hx
    obtain ⟨r, hr, rfl⟩ := hx
    simp [hall r hr]
  have h1 : resolved_rows y_trues y_preds true =
      (processRows y_trues y_preds).map
        (fun r => (r.1, r.2.getD ((r.1 + max_possible_error : ℤ) : ℚ))) := by
    simp [resolved_rows, check_and_process_wellbeing_scores, hany, hallb]
  rw [h1]
  apply List.map_congr_left
  intro r hr
  rw [hall r hr]
  simp [max_possible_error]

theorem resolved_rows_some_none (y_trues : List (Option ℤ))
    (y_preds : List (Option ℚ))
    (hex : ∃ r ∈ processRows y_trues y_preds, r.2 = Option.none)
    (hnex : ∃ r ∈ processRows y_trues y_preds, r.2 ≠ Option.none) :
    resolved_rows y_trues y_preds true =
      (processRows y_trues y_preds).map
        (fun r => (r.1, r.2.getD
          ((r.1 + maxObservedError (processRows y_trues y_preds) : ℤ) : ℚ))) := by
  have hany : ((processRows y_trues y_preds).map (fun r => r.2.isNone)).any id = true := by
    rw [List.any_eq_true]
    obtain ⟨r, hr, hr2⟩ := hex
    exact ⟨r.2.isNone, List.mem_map_of_mem _ hr, by simp [hr2]⟩
  have hnall : ((processRows y_trues y_preds).map (fun r => r.2.isNone)).all id = false := by
    obtain ⟨r, hr, hr2⟩ := hnex
    rw [Bool.eq_false_iff]
    intro hallb
    rw [List.all_eq_true] at hallb
    have hx := hallb r.2.isNone (List.mem_map_of_mem _ hr)
    simp only [id_eq, Option.isNone_iff_eq_none] at hx
    exact hr2 hx
  simp [resolved_rows, check_and_process_wellbeing_scores, hany, hnall]

theorem compute_mse_nobinwise (y_trues : List (Option ℤ)) (y_preds : List (Option ℚ))
    (dp : Bool) (sfx : String) :
    compute_mse y_trues y_preds dp false sfx =
      compute_mse_nobin y_trues y_preds dp sfx := rfl

/-- C3: with `do_penalize=True`: when every prediction paired with a
non-null gold is null, each null prediction is substituted by gold + 9 (the
theoretical maximum error); in particular for gold `[3,5,8]` and all-null
predictions the result is the MSE of `[3,5,8]` against `[12,14,17]` (= 81);
when only some predictions are null, each null is substituted by gold + the
maximum absolute error among the non-null prediction pairs of the batch. -/
theorem c3_null_prediction_penalty (y_trues : List (Option ℤ))
    (y_preds : List (Option ℚ)) :
    (processRows y_trues y_preds ≠ [] →
      (∀ r ∈ processRows y_trues y_preds, r.2 = Option.none) →
      compute_mse y_trues y_preds true false "" =
        [("mse", ⟨"A.2", mean_squared_error ((processRows y_trues y_preds).map
            (fun r => (r.1, ((r.1 + 9 : ℤ) : ℚ))))⟩)]) ∧
    ((∃ r ∈ processRows y_trues y_preds, r.2 = Option.none) →
      (∃ r ∈ processRows y_trues y_preds, r.2 ≠ Option.none) →
      compute_mse y_trues y_preds true false "" =
        [("mse", ⟨"A.2", mean_squared_error ((processRows y_trues y_preds).map
            (fun r => (r.1, r.2.getD
              ((r.1 + maxObservedError (processRows y_trues y_preds) : ℤ) : ℚ))))⟩)]) ∧
    compute_mse [some 3, some 5, some 8]
        ([Option.none, Option.none, Option.none] : List (Option ℚ)) true false "" =
      [("mse", ⟨"A.2", mean_squared_error [((3 : ℤ), (12 : ℚ)), (5, 14), (8, 17)]⟩)] ∧
    mean_squared_error [((3 : ℤ), (12 : ℚ)), (5, 14), (8, 17)] = 81 := by
  have part1 : ∀ (yt : List (Option ℤ)) (yp : List (Option ℚ)),
      processRows yt yp ≠ [] → (∀ r ∈ processRows yt yp, r.2 = Option.none) →
      compute_mse yt yp true false "" =
        [("mse", ⟨"A.2", mean_squared_error ((processRows yt yp).map
            (fun r => (r.1, ((r.1 + 9 : ℤ) : ℚ))))⟩)] := by
    intro yt yp hne hall
    rw [compute_mse_nobinwise]
    unfold compute_mse_nobin
    rw [resolved_rows_all_none yt yp hne hall]
    rfl
  refine ⟨part1 y_trues y_preds, ?_, ?_, ?_⟩
  · intro hex hnex
    rw [compute_mse_nobinwise]
    unfold compute_mse_nobin
    rw [resolved_rows_some_none y_trues y_preds hex hnex]
    rfl
  · rw [part1 [some 3, some 5, some 8] [Option.none, Option.none, Option.none]
      (by decide) (by decide)]
    norm_num [processRows, mean_squared_error, listMean, List.filterMap_cons,
      Option.map_some', Option.map_none', Function.comp]
  · norm_num [mean_squared_error, listMean]

/-- Witness for C3 at concrete inputs: the all-null part at gold `[2]`, and
the some-null part at gold `[1, 2]` with predictions `[null, 1]` (maximum
observed error 1, so the null is substituted by 1 + 1). -/
theorem c3_null_prediction_penalty_witness :
    ((processRows [some 2] ([Option.none] : List (Option ℚ)) ≠ [] ∧
      ∀ r ∈ processRows [some 2] ([Option.none] : List (Option ℚ)),
        r.2 = Option.none) ∧
     compute_mse [some 2] ([Option.none] : List (Option ℚ)) true false "" =
       [("mse", ⟨"A.2", mean_squared_error ((processRows [some 2]
           ([Option.none] : List (Option ℚ))).map
           (fun r => (r.1, ((r.1 + 9 : ℤ) : ℚ))))⟩)]) ∧
    ((∃ r ∈ processRows [some 1, some 2] [Option.none, some 1], r.2 = Option.none) ∧
     (∃ r ∈ processRows [some 1, some 2] [Option.none, some 1], r.2 ≠ Option.none) ∧
     compute_mse [some 1, some 2] [Option.none, some 1] true false "" =
       [("mse", ⟨"A.2", mean_squared_error ((processRows [some 1, some 2]
           [Option.none, some 1]).map
           (fun r => (r.1, r.2.getD
             ((r.1 + maxObservedError (processRows [some 1, some 2]
                 [Option.none, some 1]) : ℤ) : ℚ))))⟩)]) :=
  ⟨⟨⟨by decide, by decide⟩,
    (c3_null_prediction_penalty [some 2] [Option.none]).1 (by decide) (by decide)⟩,
   ⟨by decide, by decide,
    (c3_null_prediction_penalty [some 1, some 2] [Option.none, some 1]).2.1
      (by decide) (by decide)⟩⟩

end CLPsych

namespace CLPsych

theorem processRows_gold_mem (y_trues : List (Option ℤ)) (y_preds : List (Option ℚ)) :
    ∀ r ∈ processRows y_trues y_preds, some r.1 ∈ y_trues := by
  intro r hr
  unfold processRows at hr
  rw [List.mem_filterMap] at hr
  obtain ⟨⟨og, op⟩, hgp, hmap⟩ := hr
  rw [Option.map_eq_some'] at hmap
  obtain ⟨g, hg1, hg2⟩ := hmap
  have h1 : og ∈ y_trues := (List.of_mem_zip hgp).1
  have hog : og = some g := hg1
  rw [hog] at h1
  rw [← hg2]
  exact h1

theorem resolved_rows_gold_mem (y_trues : List (Option ℤ)) (y_preds : List (Option ℚ))
    (dp : Bool) : ∀ r ∈ resolved_rows y_trues y_preds dp, some r.1 ∈ y_trues := by
  intro r hr
  have key := processRows_gold_mem y_trues y_preds
  cases dp with
  | true =>
    simp only [resolved_rows, check_and_process_wellbeing_scores, if_true] at hr
    split at hr
    · rw [List.mem_map] at hr
      obtain ⟨r0, hr0, rfl⟩ := hr
      exact key r0 hr0
    · rw [List.mem_filterMap] at hr
      obtain ⟨r0, hr0, hf⟩ := hr
      rw [Option.map_eq_some'] at hf
      obtain ⟨p, hp1, hp2⟩ := hf
      rw [← hp2]
      exact key r0 hr0
  | false =>
    simp only [resolved_rows, check_and_process_wellbeing_scores, Bool.false_eq_true,
      if_false, List.any_nil] at hr
    rw [List.mem_filterMap] at hr
    obtain ⟨r0, hr0, hf⟩ := hr
    rw [List.mem_filterMap] at hr0
    obtain ⟨r1, hr1, hf1⟩ := hr0
    rw [Option.map_eq_some'] at hf hf1
    obtain ⟨p, hp1, hp2⟩ := hf
    obtain ⟨p1, hp11, hp12⟩ := hf1
    rw [← hp2]
    have : r0.1 = r1.1 := by rw [← hp12]
    rw [this]
    exact key r1 hr1

theorem mem_binwise_results_keys (rows : List (ℤ × ℚ)) (dp : Bool)
    (bins : List (String × ℤ × ℤ)) (k : String)
    (hk : k ∈ (binwise_results rows dp bins).map Prod.fst) :
    ∃ b ∈ bins, k = mseKey b.1 ∧
      rows.filter (fun r => decide (b.2.1 ≤ r.1 ∧ r.1 ≤ b.2.2)) ≠ [] := by
  induction bins with
  | nil => simp [binwise_results] at hk
  | cons b bins ih =>
    have hstep : binwise_results rows dp (b :: bins) =
        (let sub := rows.filter (fun r => decide (b.2.1 ≤ r.1 ∧ r.1 ≤ b.2.2))
         if sub.isEmpty then []
         else compute_mse_nobin (sub.map (fun r => some r.1))
                (sub.map (fun r => some r.2)) dp b.1) ++
        binwise_results rows dp bins := rfl
    rw [hstep, List.map_append, List.mem_append] at hk
    rcases hk with h | h
    · by_cases hsub : (rows.filter (fun r => decide (b.2.1 ≤ r.1 ∧ r.1 ≤ b.2.2))).isEmpty
      · rw [if_pos hsub] at h
        simp at h
      · rw [if_neg hsub] at h
        simp only [compute_mse_nobin, List.map_cons, List.map_nil,
          List.mem_singleton] at h
        refine ⟨b, List.mem_cons_self b bins, h, ?_⟩
        intro hnil
        rw [hnil] at hsub
        exact hsub rfl
    · obtain ⟨b', hb', hkeq, hfil⟩ := ih h
      exact ⟨b', List.mem_cons_of_mem b hb', hkeq, hfil⟩

/-- C6: in bin-wise mode, a severity bin (serious 1–4, impaired 5–6,
minimal 7–10) with no gold member in the batch is skipped: no metric keyed
with that bin's suffix appears in the returned mapping. -/
theorem c6_binwise_skips_empty_bins (y_trues : List (Option ℤ))
    (y_preds : List (Option ℚ)) (dp : Bool) (b : String × ℤ × ℤ)
    (hb : b ∈ wb_bins)
    (hno : (y_trues.filterMap id).filter
      (fun g => decide (b.2.1 ≤ g ∧ g ≤ b.2.2)) = []) :
    mseKey b.1 ∉ (compute_mse y_trues y_preds dp true "").map Prod.fst := by
  intro hmem
  have hnog : ∀ g : ℤ, some g ∈ y_trues → ¬(b.2.1 ≤ g ∧ g ≤ b.2.2) := by
    intro g hg
    have hmemf : g ∈ y_trues.filterMap id := List.mem_filterMap.mpr ⟨some g, hg, rfl⟩
    have hx := List.filter_eq_nil_iff.mp hno g hmemf
    simpa using hx
  have hsubb : (resolved_rows y_trues y_preds dp).filter
      (fun r => decide (b.2.1 ≤ r.1 ∧ r.1 ≤ b.2.2)) = [] := by
    rw [List.filter_eq_nil_iff]
    intro r hr
    have hg := resolved_rows_gold_mem y_trues y_preds dp r hr
    simpa using hnog r.1 hg
  have hcm : compute_mse y_trues y_preds dp true "" =
      compute_mse_nobin y_trues y_preds dp "" ++
        binwise_results (resolved_rows y_trues y_preds dp) dp wb_bins := rfl
  rw [hcm, List.map_append, List.mem_append] at hmem
  rcases hmem with h | h
  · simp only [compute_mse_nobin, List.map_cons, List.map_nil,
      List.mem_singleton] at h
    have hb9 : b = ("serious", (1 : ℤ), (4 : ℤ)) ∨ b = ("impaired", 5, 6) ∨
        b = ("minimal", 7, 10) := by simpa [wb_bins] using hb
    rcases hb9 with rfl | rfl | rfl <;> exact absurd h (by decide)
  · obtain ⟨b', hb', hkeq, hfil⟩ := mem_binwise_results_keys _ _ _ _ h
    have hb9 : b = ("serious", (1 : ℤ), (4 : ℤ)) ∨ b = ("impaired", 5, 6) ∨
        b = ("minimal", 7, 10) := by simpa [wb_bins] using hb
    have hb9' : b' = ("serious", (1 : ℤ), (4 : ℤ)) ∨ b' = ("impaired", 5, 6) ∨
        b' = ("minimal", 7, 10) := by simpa [wb_bins] using hb'
    rcases hb9 with rfl | rfl | rfl <;> rcases hb9' with rfl | rfl | rfl <;>
      first
        | exact hfil hsubb
        | exact absurd hkeq (by decide)

/-- Witness for C6 at a concrete input: gold `[5, null]` has no member in
the serious bin (1–4), so no `mse_serious` metric is emitted. -/
theorem c6_binwise_skips_empty_bins_witness :
    ((("serious", (1 : ℤ), (4 : ℤ)) ∈ wb_bins ∧
      (([some 5, Option.none] : List (Option ℤ)).filterMap id).filter
        (fun g => decide (("serious", (1 : ℤ), (4 : ℤ)).2.1 ≤ g ∧
          g ≤ ("serious", (1 : ℤ), (4 : ℤ)).2.2)) = []) ∧
     mseKey ("serious", (1 : ℤ), (4 : ℤ)).1 ∉
       (compute_mse [some 5, Option.none] [some 5, some 6] true true "").map
         Prod.fst) :=
  ⟨⟨by decide, by decide⟩,
   c6_binwise_skips_empty_bins [some 5, Option.none] [some 5, some 6] true
     ("serious", (1 : ℤ), (4 : ℤ)) (by decide) (by decide)⟩

end CLPsych

namespace CLPsych

/-- C2 counterexample: a float wellbeing prediction (here 7.5) is NOT
rejected to null by the aggregator's normalization — it passes through
unchanged, so the value handed to the wellbeing scorer is not int-or-null. -/
theorem c2_float_not_rejected_counterexample :
    normalize_wellbeing_score (.float (15 / 2)) = .float (15 / 2) ∧
    (normalize_wellbeing_score (.float (15 / 2))).isIntOrNull = false ∧
    predicted_wellbeing_scores
        [⟨Option.none, Option.none, Option.none, some (.float (15 / 2))⟩] =
      [.float (15 / 2)] :=
  ⟨rfl, rfl, rfl⟩

/-- C2 (amended): `score_submission` normalizes the predicted wellbeing
score to an int, a float, or null before scoring: a numeric string is
parsed to its integer value, a non-numeric string and any value that is not
an int, float or null is rejected to null, while int and float values pass
through unchanged — so every value passed to the wellbeing scorer is an
int, a float, or null (floats are not rejected). -/
theorem c2_normalization_int_float_or_null (posts : List SubPost) :
    (∀ v ∈ predicted_wellbeing_scores posts, v.isIntFloatOrNull = true) ∧
    (∀ p ∈ posts, ∀ s : String,
      p.wellbeing_score = some (.str s) → pyIsNumeric (pyStrip s) = true →
      postWellbeing p = .int (pyStrToInt (pyStrip s))) ∧
    (∀ p ∈ posts, ∀ q : ℚ,
      p.wellbeing_score = some (.float q) → postWellbeing p = .float q) := by
  refine ⟨?_, ?_, ?_⟩
  · intro v hv
    rw [predicted_wellbeing_scores, List.mem_map] at hv
    obtain ⟨p, hp, rfl⟩ := hv
    unfold postWellbeing
    cases h : p.wellbeing_score.getD PyVal.none with
    | str s =>
      simp only [normalize_wellbeing_score]
      split <;> rfl
    | int z => rfl
    | float q => rfl
    | none => rfl
    | list xs => rfl
    | dict es => rfl
  · intro p hp s hs hnum
    have hne : (!(pyStrip s).data.isEmpty) = true := by
      have h' := hnum
      rw [pyIsNumeric, Bool.and_eq_true_iff] at h'
      exact h'.1
    unfold postWellbeing
    rw [hs]
    simp only [Option.getD_some, normalize_wellbeing_score, hne, hnum,
      Bool.and_self, if_true]
  · intro p hp q hq
    unfold postWellbeing
    rw [hq]
    rfl

/-- Witness for C2 (amended) at a concrete input: the numeric string
`" 7 "` is stripped and parsed to the integer 7. -/
theorem c2_normalization_int_float_or_null_witness :
    (∀ v ∈ predicted_wellbeing_scores
        [⟨Option.none, Option.none, Option.none, some (.str " 7 ")⟩],
      v.isIntFloatOrNull = true) ∧
    pyIsNumeric (pyStrip " 7 ") = true ∧
    postWellbeing ⟨Option.none, Option.none, Option.none, some (.str " 7 ")⟩ =
      .int (pyStrToInt (pyStrip " 7 ")) :=
  ⟨(c2_normalization_int_float_or_null
      [⟨Option.none, Option.none, Option.none, some (.str " 7 ")⟩]).1,
   by decide,
   (c2_normalization_int_float_or_null
       [⟨Option.none, Option.none, Option.none, some (.str " 7 ")⟩]).2.1
     _ (List.mem_singleton_self _) " 7 " rfl (by decide)⟩

theorem lookupPosts_eq_none (post_level : List (String × SubPost))
    (pids : List String) (pid : String) (hpid : pid ∈ pids)
    (hm : post_level.lookup pid = Option.none) :
    lookupPosts post_level pids = Option.none := by
  induction pids with
  | nil => cases hpid
  | cons a as ih =>
    rw [List.mem_cons] at hpid
    unfold lookupPosts
    rcases hpid with rfl | hpid
    · rw [hm]
    · cases h : post_level.lookup a with
      | none => rfl
      | some p =>
        rw [ih hpid]
        rfl

/-- C1 counterexample: a submission whose `post_level` lacks the gold post
`"p1"` makes `score_submission` raise (`KeyError` at the
`post_level[post_id]` lookup) instead of treating the missing post as
absent/default — the run does not complete. -/
theorem c1_missing_post_counterexample :
    score_submission (fun _ => []) (fun _ => 2) (fun _ _ => 0) (fun _ _ => 0)
      (fun _ _ => 0) true true true true
      [("t1", ⟨.str "", []⟩)]
      [("t1", ⟨⟨"a summary", ["a summary"], [], [], [], ["p1"]⟩,
        [("p1", ⟨"", [], some 5⟩)]⟩)] = Option.none := rfl

/-- C1 (amended): when the submission's `post_level` mapping lacks a post id
of the gold timeline, `score_submission` fails on that timeline (KeyError —
scoring does not complete); only a missing field within a *present* post
record is treated as absent/default per field: no evidence spans, null
wellbeing score, empty summary. -/
theorem c1_amended_missing_post_raises (sentTok : String → List String)
    (tokLen : String → ℕ) (fscore entail contradict : String → String → ℚ)
    (dA1 dA2 dB dC : Bool) (submission_data : List (String × SubTimeline))
    (timeline_id : String) (gold_datum : GoldTimeline) (st : SubTimeline)
    (pid : String)
    (hsub : submission_data.lookup timeline_id = some st)
    (hpid : pid ∈ gold_datum.timeline_level.post_ids)
    (hmiss : st.post_level.lookup pid = Option.none) :
    score_timeline sentTok tokLen fscore entail contradict dA1 dA2 dB dC
        submission_data timeline_id gold_datum = Option.none ∧
    postAdaptive ⟨Option.none, Option.none, Option.none, Option.none⟩ = [] ∧
    postMaladaptive ⟨Option.none, Option.none, Option.none, Option.none⟩ = [] ∧
    postWellbeing ⟨Option.none, Option.none, Option.none, Option.none⟩ = .none ∧
    (⟨Option.none, Option.none, Option.none, Option.none⟩ : SubPost).summary.getD ""
      = "" := by
  refine ⟨?_, rfl, rfl, rfl, rfl⟩
  have hlp : lookupPosts st.post_level gold_datum.timeline_level.post_ids =
      Option.none := lookupPosts_eq_none _ _ pid hpid hmiss
  simp [score_timeline, hsub, hlp]

/-- Witness for C1 (amended) at the concrete input of the counterexample. -/
theorem c1_amended_missing_post_raises_witness :
    (List.lookup "t1" [("t1", (⟨.str "", []⟩ : SubTimeline))] =
        some (⟨.str "", []⟩ : SubTimeline) ∧
     "p1" ∈ (⟨⟨"a summary", ["a summary"], [], [], [], ["p1"]⟩,
        [("p1", (⟨"", [], some 5⟩ : GoldPost))]⟩ :
        GoldTimeline).timeline_level.post_ids ∧
     List.lookup "p1" (⟨.str "", []⟩ : SubTimeline).post_level = Option.none) ∧
    score_timeline (fun _ => []) (fun _ => 2) (fun _ _ => 0) (fun _ _ => 0)
        (fun _ _ => 0) true true true true [("t1", ⟨.str "", []⟩)] "t1"
        ⟨⟨"a summary", ["a summary"], [], [], [], ["p1"]⟩,
         [("p1", ⟨"", [], some 5⟩)]⟩ = Option.none :=
  ⟨⟨rfl, by decide, rfl⟩,
   (c1_amended_missing_post_raises (fun _ => []) (fun _ => 2) (fun _ _ => 0)
      (fun _ _ => 0) (fun _ _ => 0) true true true true
      [("t1", ⟨.str "", []⟩)] "t1"
      ⟨⟨"a summary", ["a summary"], [], [], [], ["p1"]⟩,
       [("p1", ⟨"", [], some 5⟩)]⟩
      ⟨.str "", []⟩ "p1" rfl (by decide) rfl).1⟩

end CLPsych

namespace CLPsych

theorem optBind_isSome {α β : Type} (x : Option α) (f : α → Option β)
    (hx : x.isSome = true) (hf : ∀ a, (f a).isSome = true) :
    (x.bind f).isSome = true := by
  obtain ⟨a, ha⟩ := Option.isSome_iff_exists.mp hx
  rw [ha]
  exact hf a

theorem compute_nli_scores_isSome_of_source_nonempty
    (entail contradict : String → String → ℚ)
    (source_sents predicted_sents : List String) (task pfx source_name : String)
    (h : source_sents ≠ []) :
    (compute_nli_scores entail contradict source_sents predicted_sents task pfx
        source_name).isSome = true := by
  obtain ⟨s, ss, rfl⟩ := List.exists_cons_of_ne_nil h
  cases predicted_sents with
  | nil => rfl
  | cons p ps => rfl

theorem taskB_results_isSome (entail contradict : String → String → ℚ)
    (pairs : List (List String × List String)) :
    (taskB_results entail contradict pairs).isSome = true := by
  induction pairs with
  | nil => rfl
  | cons gp rest ih =>
    obtain ⟨g, p⟩ := gp
    unfold taskB_results
    by_cases hge : g.isEmpty = true
    · rw [if_pos hge]
      exact ih
    · rw [if_neg hge]
      apply optBind_isSome
      · apply compute_nli_scores_isSome_of_source_nonempty
        intro h0
        rw [h0] at hge
        exact hge rfl
      · intro r
        apply optBind_isSome _ _ ih
        intro rs
        rfl

theorem lookupPosts_isSome (pl : List (String × SubPost)) (pids : List String)
    (h : ∀ pid ∈ pids, (pl.lookup pid).isSome = true) :
    (lookupPosts pl pids).isSome = true := by
  induction pids with
  | nil => rfl
  | cons a as ih =>
    unfold lookupPosts
    obtain ⟨p, hp⟩ := Option.isSome_iff_exists.mp (h a (List.mem_cons_self a as))
    rw [hp]
    obtain ⟨ps, hps⟩ := Option.isSome_iff_exists.mp
      (ih (fun pid hpid => h pid (List.mem_cons_of_mem a hpid)))
    rw [hps]
    rfl

theorem lookupGoldPosts_isSome (pl : List (String × GoldPost)) (pids : List String)
    (h : ∀ pid ∈ pids, (pl.lookup pid).isSome = true) :
    (lookupGoldPosts pl pids).isSome = true := by
  induction pids with
  | nil => rfl
  | cons a as ih =>
    unfold lookupGoldPosts
    obtain ⟨p, hp⟩ := Option.isSome_iff_exists.mp (h a (List.mem_cons_self a as))
    rw [hp]
    obtain ⟨ps, hps⟩ := Option.isSome_iff_exists.mp
      (ih (fun pid hpid => h pid (List.mem_cons_of_mem a hpid)))
    rw [hps]
    rfl

/-- C10: `compute_nli_scores` is partial at the public interface — empty
source sentences with non-empty predicted sentences leave the score sets
empty, so taking their maxima fails (no result) — and this error branch is
unreachable from `score_submission`: the NLI scorer always returns a result
when the source is non-empty, and `score_timeline` only invokes it under a
non-empty-gold-summary guard, so whenever every timeline/post lookup
succeeds the timeline is scored. -/
theorem c10_nli_partiality :
    (∀ (entail contradict : String → String → ℚ) (predicted_sents : List String)
        (task pfx source_name : String), predicted_sents ≠ [] →
      compute_nli_scores entail contradict [] predicted_sents task pfx
        source_name = Option.none) ∧
    (∀ (entail contradict : String → String → ℚ)
        (source_sents predicted_sents : List String)
        (task pfx source_name : String), source_sents ≠ [] →
      (compute_nli_scores entail contradict source_sents predicted_sents task pfx
          source_name).isSome = true) ∧
    (∀ (sentTok : String → List String) (tokLen : String → ℕ)
        (fscore entail contradict : String → String → ℚ) (dA1 dA2 dB dC : Bool)
        (submission_data : List (String × SubTimeline)) (timeline_id : String)
        (gold_datum : GoldTimeline) (st : SubTimeline),
      submission_data.lookup timeline_id = some st →
      (∀ pid ∈ gold_datum.timeline_level.post_ids,
        (st.post_level.lookup pid).isSome = true) →
      (∀ pid ∈ gold_datum.timeline_level.post_ids,
        (gold_datum.post_level.lookup pid).isSome = true) →
      (score_timeline sentTok tokLen fscore entail contradict dA1 dA2 dB dC
          submission_data timeline_id gold_datum).isSome = true) := by
  refine ⟨?_, compute_nli_scores_isSome_of_source_nonempty, ?_⟩
  · intro entail contradict predicted_sents task pfx source_name hpred
    obtain ⟨p, ps, rfl⟩ := List.exists_cons_of_ne_nil hpred
    rfl
  · intro sentTok tokLen fscore entail contradict dA1 dA2 dB dC subd tl gold st
      hsub hposts hgold
    simp only [score_timeline]
    rw [hsub, Option.some_bind]
    apply optBind_isSome _ _ (lookupPosts_isSome _ _ hposts)
    intro posts
    apply optBind_isSome
    · cases dA2 with
      | false => rfl
      | true =>
        apply optBind_isSome _ _ (lookupGoldPosts_isSome _ _ hgold)
        intro gps
        rfl
    · intro resultsA2
      apply optBind_isSome
      · cases dB with
        | false => rfl
        | true =>
          apply optBind_isSome _ _ (lookupGoldPosts_isSome _ _ hgold)
          intro gps
          exact taskB_results_isSome _ _ _
      · intro resultsB
        apply optBind_isSome
        · cases dC with
          | false => rfl
          | true =>
            by_cases hgs : gold.timeline_level.summary_sents.isEmpty = true
            · rw [if_pos hgs]
              rfl
            · rw [if_neg hgs]
              have h1 : ∀ preds : List String,
                  (compute_timeline_nli_gold entail contradict
                    gold.timeline_level.summary_sents preds).isSome = true := by
                intro preds
                apply compute_nli_scores_isSome_of_source_nonempty
                intro h0
                rw [h0] at hgs
                exact hgs rfl
              obtain ⟨r, hr⟩ := Option.isSome_iff_exists.mp (h1 _)
              rw [hr]
              rfl
        · intro resultsC
          rfl

/-- Witness for C10 at concrete inputs: the failing call with empty source
and non-empty prediction, the guarded call with non-empty source, and a
fully-present one-post timeline that scores successfully. -/
theorem c10_nli_partiality_witness :
    compute_nli_scores (fun _ _ => 0) (fun _ _ => 0) [] ["pred"] "B" "post"
      "gold" = Option.none ∧
    (compute_nli_scores (fun _ _ => 0) (fun _ _ => 0) ["src"] [] "B" "post"
      "gold").isSome = true ∧
    (score_timeline (fun _ => []) (fun _ => 2) (fun _ _ => 0) (fun _ _ => 0)
        (fun _ _ => 0) true true true true
        [("t1", ⟨.str "",
          [("p1", ⟨Option.none, Option.none, Option.none, Option.none⟩)]⟩)]
        "t1"
        ⟨⟨"a summary", ["a summary"], [], [], [], ["p1"]⟩,
         [("p1", ⟨"", [], some 5⟩)]⟩).isSome = true :=
  ⟨c10_nli_partiality.1 (fun _ _ => 0) (fun _ _ => 0) ["pred"] "B" "post" "gold"
     (by decide),
   c10_nli_partiality.2.1 (fun _ _ => 0) (fun _ _ => 0) ["src"] [] "B" "post"
     "gold" (by decide),
   c10_nli_partiality.2.2 (fun _ => []) (fun _ => 2) (fun _ _ => 0)
     (fun _ _ => 0) (fun _ _ => 0) true true true true
     [("t1", ⟨.str "",
       [("p1", ⟨Option.none, Option.none, Option.none, Option.none⟩)]⟩)]
     "t1"
     ⟨⟨"a summary", ["a summary"], [], [], [], ["p1"]⟩,
      [("p1", ⟨"", [], some 5⟩)]⟩
     ⟨.str "", [("p1", ⟨Option.none, Option.none, Option.none, Option.none⟩)]⟩
     rfl (by decide) (by decide)⟩

end CLPsych

namespace CLPsych

/-- C5 counterexample: a wellbeing score submitted as the numeric string
`"7"` IS flagged by the validator (`check_type(int)` fails on a str): the
post is added to `posts_with_issues` and the `valid` flag is cleared,
contrary to the claim that the validator accepts it. -/
theorem c5_numeric_string_flagged_counterexample :
    (validate_post_dict initVState
        (.dict [("adaptive_evidence", .list []), ("maladaptive_evidence", .list []),
                ("summary", .str "a post summary"), ("wellbeing_score", .str "7")])
        "t" "p").valid = false ∧
    ("t", "p") ∈ (validate_post_dict initVState
        (.dict [("adaptive_evidence", .list []), ("maladaptive_evidence", .list []),
                ("summary", .str "a post summary"), ("wellbeing_score", .str "7")])
        "t" "p").posts_with_issues := by
  refine ⟨by decide, by decide⟩

/-- C5 (amended): the validator flags a wellbeing score given as the
numeric string `"7"` as a type issue (even though the scorer would parse
it); a float `7.0` only produces a truncation warning (no issue recorded,
`valid` stays set); integers `11` and `0` are flagged as out-of-range
issues. -/
theorem c5_wellbeing_score_validation :
    ((validate_post_dict initVState
        (.dict [("adaptive_evidence", .list []), ("maladaptive_evidence", .list []),
                ("summary", .str "a post summary"), ("wellbeing_score", .str "7")])
        "t" "p").valid = false ∧
     ("t", "p") ∈ (validate_post_dict initVState
        (.dict [("adaptive_evidence", .list []), ("maladaptive_evidence", .list []),
                ("summary", .str "a post summary"), ("wellbeing_score", .str "7")])
        "t" "p").posts_with_issues) ∧
    ((validate_post_dict initVState
        (.dict [("adaptive_evidence", .list []), ("maladaptive_evidence", .list []),
                ("summary", .str "a post summary"), ("wellbeing_score", .float 7)])
        "t" "p").valid = true ∧
     (validate_post_dict initVState
        (.dict [("adaptive_evidence", .list []), ("maladaptive_evidence", .list []),
                ("summary", .str "a post summary"), ("wellbeing_score", .float 7)])
        "t" "p").posts_with_issues = [] ∧
     (validate_post_dict initVState
        (.dict [("adaptive_evidence", .list []), ("maladaptive_evidence", .list []),
                ("summary", .str "a post summary"), ("wellbeing_score", .float 7)])
        "t" "p").warnings.length = 1) ∧
    ((validate_post_dict initVState
        (.dict [("adaptive_evidence", .list []), ("maladaptive_evidence", .list []),
                ("summary", .str "a post summary"), ("wellbeing_score", .int 11)])
        "t" "p").valid = false ∧
     ("t", "p") ∈ (validate_post_dict initVState
        (.dict [("adaptive_evidence", .list []), ("maladaptive_evidence", .list []),
                ("summary", .str "a post summary"), ("wellbeing_score", .int 11)])
        "t" "p").posts_with_issues) ∧
    ((validate_post_dict initVState
        (.dict [("adaptive_evidence", .list []), ("maladaptive_evidence", .list []),
                ("summary", .str "a post summary"), ("wellbeing_score", .int 0)])
        "t" "p").valid = false ∧
     ("t", "p") ∈ (validate_post_dict initVState
        (.dict [("adaptive_evidence", .list []), ("maladaptive_evidence", .list []),
                ("summary", .str "a post summary"), ("wellbeing_score", .int 0)])
        "t" "p").posts_with_issues) := by
  refine ⟨⟨by decide, by decide⟩, ⟨by decide, by decide, by decide⟩,
    ⟨by decide, by decide⟩, ⟨by decide, by decide⟩⟩

end CLPsych

namespace CLPsych

/-- Monotonicity relation between validator states: a cleared `valid` flag
stays cleared and recorded timeline issues stay recorded. -/
def VPreserves (st st' : VState) : Prop :=
  (st.valid = false → st'.valid = false) ∧
  ∀ t, t ∈ st.timelines_with_issues → t ∈ st'.timelines_with_issues

theorem vpreserves_refl (st : VState) : VPreserves st st :=
  ⟨id, fun _ => id⟩

theorem vpreserves_trans {s1 s2 s3 : VState} (h1 : VPreserves s1 s2)
    (h2 : VPreserves s2 s3) : VPreserves s1 s3 :=
  ⟨fun h => h2.1 (h1.1 h), fun t ht => h2.2 t (h1.2 t ht)⟩

theorem mem_addSet_of_mem {α : Type} [DecidableEq α] {xs : List α} {x : α}
    (y : α) (h : x ∈ xs) : x ∈ addSet xs y := by
  unfold addSet
  split
  · exact h
  · exact List.mem_append_left _ h

theorem mem_addSet_self {α : Type} [DecidableEq α] (xs : List α) (x : α) :
    x ∈ addSet xs x := by
  unfold addSet
  split
  · assumption
  · exact List.mem_append_right _ (List.mem_singleton_self x)

theorem vpreserves_log_timeline_issue (st : VState) (tl : String) :
    VPreserves st (log_timeline_issue st tl) :=
  ⟨fun _ => rfl, fun _ ht => mem_addSet_of_mem tl ht⟩

theorem vpreserves_log_post_issue (st : VState) (tl pid : String) :
    VPreserves st (log_post_issue st tl pid) :=
  ⟨fun _ => rfl, fun _ ht => mem_addSet_of_mem tl ht⟩

theorem vpreserves_flagIssue (st : VState) (tl pid : Option String) :
    VPreserves st (flagIssue st tl pid) := by
  unfold flagIssue
  split
  · exact vpreserves_log_post_issue st _ _
  · split
    · exact vpreserves_log_timeline_issue st _
    · exact ⟨fun _ => rfl, fun _ ht => ht⟩

theorem vpreserves_logWarning (st : VState) (m : String) :
    VPreserves st (logWarning st m) :=
  ⟨fun h => h, fun _ ht => ht⟩

theorem vpreserves_check_type (st : VState) (ok : Bool) (tl pid : Option String) :
    VPreserves st (check_type st ok tl pid) := by
  unfold check_type
  split
  · exact vpreserves_refl st
  · exact vpreserves_flagIssue st tl pid

theorem vpreserves_check_required_fields (st : VState) (keys required : List String)
    (tl pid : Option String) :
    VPreserves st (check_required_fields st keys required tl pid) := by
  unfold check_required_fields
  split
  · exact vpreserves_refl st
  · exact vpreserves_flagIssue st tl pid

theorem vpreserves_foldl {α : Type} (g : VState → α → VState)
    (hg : ∀ s a, VPreserves s (g s a)) (l : List α) :
    ∀ st : VState, VPreserves st (l.foldl g st) := by
  induction l with
  | nil => intro st; exact vpreserves_refl st
  | cons a l ih =>
    intro st
    exact vpreserves_trans (hg st a) (ih (g st a))

theorem vpreserves_checkEvidence (st : VState) (entries : List (String × PyVal))
    (key : String) (tl pid : String) :
    VPreserves st (checkEvidence st entries key tl pid) := by
  unfold checkEvidence
  cases entries.lookup key with
  | none => exact vpreserves_refl st
  | some v =>
    cases v with
    | list xs =>
      exact vpreserves_foldl _ (fun s x => vpreserves_check_type s _ _ _) xs st
    | none => exact vpreserves_flagIssue st _ _
    | int z => exact vpreserves_flagIssue st _ _
    | float q => exact vpreserves_flagIssue st _ _
    | str s => exact vpreserves_flagIssue st _ _
    | dict es => exact vpreserves_flagIssue st _ _

theorem vpreserves_check_wellbeing_score (st : VState) (v : PyVal)
    (tl pid : String) : VPreserves st (check_wellbeing_score st v tl pid) := by
  cases v with
  | none => exact vpreserves_refl st
  | float q =>
    simp only [check_wellbeing_score]
    split
    · exact vpreserves_trans (vpreserves_logWarning st _)
        (vpreserves_log_post_issue _ tl pid)
    · exact vpreserves_logWarning st _
  | int z =>
    simp only [check_wellbeing_score]
    split
    · exact vpreserves_log_post_issue st tl pid
    · exact vpreserves_refl st
  | str s => exact vpreserves_flagIssue st _ _
  | list xs => exact vpreserves_flagIssue st _ _
  | dict es => exact vpreserves_flagIssue st _ _

theorem vpreserves_summary_field_check (st : VState)
    (entries : List (String × PyVal)) (tl pid : String) :
    VPreserves st (summary_field_check st entries tl pid) := by
  unfold summary_field_check
  cases entries.lookup "summary" with
  | none => exact vpreserves_refl st
  | some v => exact vpreserves_check_type st _ _ _

theorem vpreserves_wellbeing_field_check (st : VState)
    (entries : List (String × PyVal)) (tl pid : String) :
    VPreserves st (wellbeing_field_check st entries tl pid) := by
  unfold wellbeing_field_check
  cases entries.lookup "wellbeing_score" with
  | none => exact vpreserves_refl st
  | some v => exact vpreserves_check_wellbeing_score st v tl pid

theorem vpreserves_validate_post_dict (st : VState) (pd : PyVal)
    (tl pid : String) : VPreserves st (validate_post_dict st pd tl pid) := by
  cases pd with
  | dict entries =>
    simp only [validate_post_dict]
    split
    · exact vpreserves_log_post_issue st tl pid
    · exact vpreserves_trans (vpreserves_check_required_fields st _ _ _ _)
        (vpreserves_trans (vpreserves_checkEvidence _ entries _ tl pid)
          (vpreserves_trans (vpreserves_checkEvidence _ entries _ tl pid)
            (vpreserves_trans (vpreserves_summary_field_check _ entries tl pid)
              (vpreserves_wellbeing_field_check _ entries tl pid))))
  | none => exact vpreserves_flagIssue st _ _
  | int z => exact vpreserves_flagIssue st _ _
  | float q => exact vpreserves_flagIssue st _ _
  | str s => exact vpreserves_flagIssue st _ _
  | list xs => exact vpreserves_flagIssue st _ _

theorem vpreserves_summary_type_check (st : VState)
    (entries : List (String × PyVal)) (tl : String) :
    VPreserves st (summary_type_check st entries tl) := by
  unfold summary_type_check
  cases entries.lookup "summary" with
  | none => exact vpreserves_refl st
  | some v => exact vpreserves_check_type st _ _ _

theorem vpreserves_timeline_summary_warn (st : VState)
    (entries : List (String × PyVal)) (tl : String) :
    VPreserves st (timeline_summary_warn st entries tl) := by
  unfold timeline_summary_warn
  cases h : entries.lookup "summary" with
  | none => exact vpreserves_refl st
  | some v =>
    cases v with
    | str s =>
      have hite : VPreserves st
          (if pyStrip s = "" then
            logWarning st ("Timeline " ++ tl ++ ": timeline_level summary is empty")
          else st) := by
        by_cases hs0 : pyStrip s = ""
        · rw [if_pos hs0]
          exact vpreserves_logWarning st _
        · rw [if_neg hs0]
          exact vpreserves_refl st
      exact hite
    | none => exact vpreserves_refl st
    | int z => exact vpreserves_refl st
    | float q => exact vpreserves_refl st
    | list xs => exact vpreserves_refl st
    | dict es => exact vpreserves_refl st

theorem vpreserves_validate_timeline_level (st : VState) (tlv : PyVal)
    (tl : String) : VPreserves st (validate_timeline_level st tlv tl) := by
  cases tlv with
  | dict entries =>
    simp only [validate_timeline_level]
    split
    · exact vpreserves_log_timeline_issue st tl
    · split
      · exact vpreserves_trans (vpreserves_summary_type_check st entries tl)
          (vpreserves_timeline_summary_warn _ entries tl)
      · exact vpreserves_flagIssue st _ _
  | none => exact vpreserves_flagIssue st _ _
  | int z => exact vpreserves_flagIssue st _ _
  | float q => exact vpreserves_flagIssue st _ _
  | str s => exact vpreserves_flagIssue st _ _
  | list xs => exact vpreserves_flagIssue st _ _

theorem vpreserves_unexpected_posts_warn (st : VState) (actual expected : List String)
    (tl : String) : VPreserves st (unexpected_posts_warn st actual expected tl) := by
  unfold unexpected_posts_warn
  split
  · exact vpreserves_logWarning st _
  · exact vpreserves_refl st

theorem vpreserves_validate_post_level (st : VState) (pl : PyVal) (tl : String)
    (mapping : List (String × List String)) :
    VPreserves st (validate_post_level st pl tl mapping) := by
  cases pl with
  | dict entries =>
    simp only [validate_post_level]
    split
    · exact vpreserves_log_timeline_issue st tl
    · exact vpreserves_trans
        (vpreserves_foldl _ (fun s mp => vpreserves_log_post_issue s tl mp) _ st)
        (vpreserves_trans (vpreserves_unexpected_posts_warn _ _ _ tl)
          (vpreserves_foldl _
            (fun s kv => vpreserves_validate_post_dict s kv.2 tl kv.1) entries _))
  | none => exact vpreserves_flagIssue st _ _
  | int z => exact vpreserves_flagIssue st _ _
  | float q => exact vpreserves_flagIssue st _ _
  | str s => exact vpreserves_flagIssue st _ _
  | list xs => exact vpreserves_flagIssue st _ _

theorem vpreserves_timeline_level_field_check (st : VState)
    (entries : List (String × PyVal)) (tl : String) :
    VPreserves st (timeline_level_field_check st entries tl) := by
  unfold timeline_level_field_check
  cases entries.lookup "timeline_level" with
  | none => exact vpreserves_refl st
  | some v => exact vpreserves_validate_timeline_level st v tl

theorem vpreserves_post_level_field_check (st : VState)
    (entries : List (String × PyVal)) (tl : String)
    (mapping : List (String × List String)) :
    VPreserves st (post_level_field_check st entries tl mapping) := by
  unfold post_level_field_check
  cases entries.lookup "post_level" with
  | none => exact vpreserves_refl st
  | some v => exact vpreserves_validate_post_level st v tl mapping

theorem vpreserves_validate_timeline_dict (st : VState) (td : PyVal)
    (tl : String) (mapping : List (String × List String)) :
    VPreserves st (validate_timeline_dict st td tl mapping) := by
  cases td with
  | dict entries =>
    simp only [validate_timeline_dict]
    split
    · exact vpreserves_log_timeline_issue st tl
    · exact vpreserves_trans (vpreserves_check_required_fields st _ _ _ _)
        (vpreserves_trans (vpreserves_timeline_level_field_check _ entries tl)
          (vpreserves_post_level_field_check _ entries tl mapping))
  | none => exact vpreserves_flagIssue st _ _
  | int z => exact vpreserves_flagIssue st _ _
  | float q => exact vpreserves_flagIssue st _ _
  | str s => exact vpreserves_flagIssue st _ _
  | list xs => exact vpreserves_flagIssue st _ _

theorem mem_foldl_log_timeline_issue (l : List String) :
    ∀ (st : VState) (t : String), t ∈ l →
      t ∈ (l.foldl log_timeline_issue st).timelines_with_issues := by
  induction l with
  | nil => intro st t h; cases h
  | cons a as ih =>
    intro st t h
    rw [List.mem_cons] at h
    rw [List.foldl_cons]
    rcases h with rfl | h
    · exact (vpreserves_foldl _ vpreserves_log_timeline_issue as _).2 t
        (mem_addSet_self _ t)
    · exact ih (log_timeline_issue st a) t h

theorem valid_foldl_log_timeline_issue (l : List String) (st : VState)
    (h : st.valid = false) : (l.foldl log_timeline_issue st).valid = false :=
  (vpreserves_foldl _ vpreserves_log_timeline_issue l st).1 h

end CLPsych

namespace CLPsych

/-- C9 counterexample: a submission that is an *empty* JSON object lacks the
required timeline `"t1"`, and `validate_file` does set `valid = False` (exit
code 1) — but it returns at the empty-JSON guard before the missing-timeline
check, so `"t1"` is NOT added to `timelines_with_issues`, contradicting the
claim's universal "adds each missing timeline id". -/
theorem c9_empty_submission_counterexample :
    (validate_file initVState [("t1", ["p1"])] (.dict [])).valid = false ∧
    validator_exit_code (validate_file initVState [("t1", ["p1"])] (.dict [])) = 1 ∧
    "t1" ∉ (validate_file initVState [("t1", ["p1"])]
        (.dict [])).timelines_with_issues := by
  refine ⟨by decide, by decide, by decide⟩

/-- C9 (amended): for every submission whose top-level mapping is
*non-empty* and lacks a timeline id required by the timeline-to-post
mapping, `validate_file` sets the `valid` flag to `False` and adds each
missing timeline id to `timelines_with_issues`, and the validator process
exits with code 1 (and with code 0 when validation succeeds). -/
theorem c9_missing_timeline_flagged (mapping : List (String × List String))
    (entries : List (String × PyVal)) (tl : String)
    (hmap : tl ∈ mapping.map Prod.fst) (hne : entries ≠ [])
    (hmiss : tl ∉ entries.map Prod.fst) :
    (validate_file initVState mapping (.dict entries)).valid = false ∧
    tl ∈ (validate_file initVState mapping (.dict entries)).timelines_with_issues ∧
    validator_exit_code (validate_file initVState mapping (.dict entries)) = 1 ∧
    ∀ st : VState, st.valid = true → validator_exit_code st = 0 := by
  have hisE : entries.isEmpty = false := List.isEmpty_eq_false.mpr hne
  have hinm : tl ∈ (mapping.map Prod.fst).filter (· ∉ entries.map Prod.fst) :=
    List.mem_filter.mpr ⟨hmap, by simpa using hmiss⟩
  have hmne : (mapping.map Prod.fst).filter (· ∉ entries.map Prod.fst) ≠ [] :=
    List.ne_nil_of_mem hinm
  have hfile : validate_file initVState mapping (.dict entries) =
      entries.foldl (fun s kv => validate_timeline_dict s kv.2 kv.1 mapping)
        (unexpected_timelines_warn
          (((mapping.map Prod.fst).filter (· ∉ entries.map Prod.fst)).foldl
            (fun s m => log_timeline_issue s m) { initVState with valid := false })
          (entries.map Prod.fst) (mapping.map Prod.fst)) := by
    simp only [validate_file, hisE, Bool.false_eq_true, if_false, if_pos hmne]
  set st1 := ((mapping.map Prod.fst).filter (· ∉ entries.map Prod.fst)).foldl
    (fun s m => log_timeline_issue s m) { initVState with valid := false } with hst1
  have hv1 : st1.valid = false := by
    rw [hst1]
    exact (vpreserves_foldl _ (fun s m => vpreserves_log_timeline_issue s m) _ _).1 rfl
  have ht1 : tl ∈ st1.timelines_with_issues := by
    rw [hst1]
    exact mem_foldl_log_timeline_issue _ _ tl hinm
  have hp : VPreserves st1
      (entries.foldl (fun s kv => validate_timeline_dict s kv.2 kv.1 mapping)
        (unexpected_timelines_warn st1 (entries.map Prod.fst)
          (mapping.map Prod.fst))) :=
    vpreserves_trans (by
      unfold unexpected_timelines_warn
      split
      · exact vpreserves_logWarning st1 _
      · exact vpreserves_refl st1)
      (vpreserves_foldl _
        (fun s kv => vpreserves_validate_timeline_dict s kv.2 kv.1 mapping)
        entries _)
  refine ⟨?_, ?_, ?_, ?_⟩
  · rw [hfile]
    exact hp.1 hv1
  · rw [hfile]
    exact hp.2 tl ht1
  · unfold validator_exit_code
    rw [hfile]
    rw [hp.1 hv1]
    rfl
  · intro s hs
    unfold validator_exit_code
    rw [hs]
    rfl

/-- Witness for C9 (amended) at a concrete input: the mapping requires
timeline `"t1"` but the submission only contains `"t2"`. -/
theorem c9_missing_timeline_flagged_witness :
    ("t1" ∈ ([("t1", ["p1"])] : List (String × List String)).map Prod.fst ∧
     ([("t2", PyVal.none)] : List (String × PyVal)) ≠ [] ∧
     "t1" ∉ ([("t2", PyVal.none)] : List (String × PyVal)).map Prod.fst) ∧
    ((validate_file initVState [("t1", ["p1"])]
        (.dict [("t2", PyVal.none)])).valid = false ∧
     "t1" ∈ (validate_file initVState [("t1", ["p1"])]
        (.dict [("t2", PyVal.none)])).timelines_with_issues ∧
     validator_exit_code (validate_file initVState [("t1", ["p1"])]
        (.dict [("t2", PyVal.none)])) = 1 ∧
     ∀ st : VState, st.valid = true → validator_exit_code st = 0) :=
  ⟨⟨by decide, List.cons_ne_nil _ _, by decide⟩,
   c9_missing_timeline_flagged [("t1", ["p1"])] [("t2", PyVal.none)] "t1"
     (by decide) (List.cons_ne_nil _ _) (by decide)⟩

end CLPsych
